import Mathlib

/-!
Shallow embedding of the GyroLogger application (src/App.tsx and
src/unnamed/part_000): a React Native app that subscribes to two sensor
streams, keeps a bounded window of recent samples per stream, sanitizes and
normalizes the windows for chart display, and optionally logs every raw
sample to per-session CSV files that can be shared.

JavaScript numbers are modelled by an inductive type `JSNum` that separates
the finite values (carried as rationals) from `NaN`, `+Infinity` and
`-Infinity`; the code under verification performs no arithmetic on sample
values, only finiteness tests, identity copies and decimal formatting, so
this model is exact for every operation the code applies.
-/

/-- Model of a JavaScript number: either a finite value (as a rational) or
one of the three non-finite values `NaN`, `+Infinity`, `-Infinity`. -/
inductive JSNum where
  | finite (q : ℚ)
  | nan
  | posInf
  | negInf
deriving DecidableEq, Repr

/-- Model of `Number.isFinite(val)`: true exactly on finite values. -/
def JSNum.isFinite : JSNum → Bool
  | .finite _ => true
  | _ => false

/-- Embedding of `function safeValue(val: number): number { return Number.isFinite(val) ? val : 0; }`
(src/App.tsx lines 20-23 and src/unnamed/part_000 lines 23-25). -/
def safeValue (val : JSNum) : JSNum :=
  if val.isFinite then val else .finite 0

/-- The per-array body of `normalizeArrays` (src/App.tsx lines 35-53,
src/unnamed/part_000 lines 29-40): sanitize every element, then keep the last
`maxLength` elements if too long (`clamped.slice(clamped.length - maxLength)`)
or front-pad with zeros if too short (`[...padding, ...clamped]` with
`padding = Array(missing).fill(0)`). -/
def normalizeArray (maxLength : Nat) (arr : List JSNum) : List JSNum :=
  let clamped := arr.map safeValue
  if maxLength < clamped.length then
    clamped.drop (clamped.length - maxLength)
  else if clamped.length < maxLength then
    List.replicate (maxLength - clamped.length) (JSNum.finite 0) ++ clamped
  else
    clamped

/-- Embedding of `function normalizeArrays(arrays: number[][], maxLength: number): number[][]`
(src/App.tsx lines 31-54, src/unnamed/part_000 lines 28-41): applies the
per-array normalization to each array of the batch independently. -/
def normalizeArrays (arrays : List (List JSNum)) (maxLength : Nat) : List (List JSNum) :=
  arrays.map (normalizeArray maxLength)

/-- A raw 3-axis sample as stored in the window state
(the `{ x, y, z }` objects pushed by the subscription callbacks). -/
structure Sample3 where
  x : JSNum
  y : JSNum
  z : JSNum
deriving DecidableEq, Repr

/-- The window-buffer update performed by each subscription callback
(src/unnamed/part_000 lines 66-69 with `MAX_POINTS = 20`, src/App.tsx
lines 68-73 with `MAX_POINTS = 10`):
`const updated = [...prev, { x, y, z }]; return updated.length > N ? updated.slice(-N) : updated`.
For every capacity `N ≥ 1` (both configured capacities qualify)
`updated.slice(-N)` equals `updated.slice(updated.length - N)` (the form in
src/App.tsx), i.e. dropping `updated.length - N` elements from the front. -/
def pushWindow (N : Nat) (prev : List Sample3) (s : Sample3) : List Sample3 :=
  let updated := prev ++ [s]
  if N < updated.length then updated.drop (updated.length - N) else updated

/-- The window contents after a sequence of samples has been delivered to a
stream, starting from the initial empty state (`useState([])`). -/
def windowAfter (N : Nat) (samples : List Sample3) : List Sample3 :=
  samples.foldl (pushWindow N) []

/-- Decimal digit character, `48 = '0'`. -/
def digitChar (n : Nat) : Char := Char.ofNat (48 + n)

/-- Digits of the fractional part of `r / d` (with `r < d`), produced by
repeated multiplication by 10, stopping when the remainder is zero.  The fuel
argument makes the recursion structural; it only matters for denominators
whose decimal expansion does not terminate within the fuel, which never
happens for the values the application handles. -/
def fracDigits : Nat → Nat → Nat → List Char
  | 0, _, _ => []
  | _ + 1, 0, _ => []
  | fuel + 1, r, d => digitChar (r * 10 / d) :: fracDigits fuel (r * 10 % d) d

/-- Decimal rendering of a finite rational value, modelling the ECMAScript
number-to-string conversion performed by the template literal `${x}` for
values with a short exact decimal expansion: optional sign, integer part,
and fractional digits only when the fractional part is non-zero (so `-2.0`
renders as `-2` and `0.0` as `0`). -/
def ratToString (q : ℚ) : String :=
  let sign := if q < 0 then "-" else ""
  let n := q.num.natAbs
  let d := q.den
  let intDigits := toString (n / d)
  let frac := fracDigits 100 (n % d) d
  if frac.isEmpty then sign ++ intDigits
  else sign ++ intDigits ++ "." ++ String.mk frac

/-- Model of the ECMAScript ToString conversion applied by `${x}` inside the
log-line template literal, on the `JSNum` model of JavaScript numbers. -/
def numToString : JSNum → String
  | .finite q => ratToString q
  | .nan => "NaN"
  | .posInf => "Infinity"
  | .negInf => "-Infinity"

/-- The CSV header written to each freshly created log file:
`RNFS.writeFile(path, 'timestamp,x,y,z\n', 'utf8')`
(src/unnamed/part_000 lines 164-165). -/
def headerLine : String := "timestamp,x,y,z\n"

/-- One CSV data row, embedding
`const logLine = ` + backtick-template `${Date.now()},${x},${y},${z}\n`
(src/unnamed/part_000 lines 73 and 87); `now` is the epoch-milliseconds
value returned by `Date.now()`. -/
def logLine (now : Nat) (x y z : JSNum) : String :=
  toString now ++ "," ++ numToString x ++ "," ++ numToString y ++ "," ++ numToString z ++ "\n"

/-- The file system visible to the app, modelled as an association list from
absolute paths to file contents. -/
abbrev FileSystem := List (String × String)

/-- Model of `RNFS.writeFile(path, content, 'utf8')`: creates the file or
replaces its contents. -/
def fsWrite : FileSystem → String → String → FileSystem
  | [], path, content => [(path, content)]
  | e :: rest, path, content =>
    if e.1 = path then (path, content) :: rest else e :: fsWrite rest path content

/-- Model of `RNFS.appendFile(path, line, 'utf8')` on an existing file:
appends to the file's contents (no-op on a path that does not exist; every
append the app issues targets a file created at session start). -/
def fsAppend : FileSystem → String → String → FileSystem
  | [], _, _ => []
  | e :: rest, path, line =>
    if e.1 = path then (e.1, e.2 ++ line) :: rest else e :: fsAppend rest path line

/-- Reads a file's contents, `none` when the path does not exist. -/
def fsRead : FileSystem → String → Option String
  | [], _ => none
  | e :: rest, path => if e.1 = path then some e.2 else fsRead rest path

/-- `const MAX_POINTS = 20` (src/unnamed/part_000 line 20; src/App.tsx, the
display-only variant, uses 10). -/
def MAX_POINTS : Nat := 20

/-- Model of the external constant `RNFS.DocumentDirectoryPath`; its concrete
value is irrelevant to the program, any fixed string works. -/
def documentDirectoryPath : String := "/data/user/0/com.gyrologger/files"

/-- The mutable state of the `App` component that the claims concern:
the two window buffers (`accData`, `gyroData` from `useState`), the two
published log paths (`accLogPath`, `gyroLogPath`), the logging flag
(`isLogging`), together with the file system the RNFS calls act on. -/
structure AppState where
  accData : List Sample3
  gyroData : List Sample3
  accLogPath : String
  gyroLogPath : String
  isLogging : Bool
  fs : FileSystem
deriving DecidableEq, Repr

/-- Embedding of the accelerometer subscription callback
(src/unnamed/part_000 lines 64-76): always push the raw sample into the
window; then, only `if (isLogging && accLogPath)` (a string is truthy iff
non-empty), append one CSV row to the acc log file.  `appendOk` models
whether the asynchronous native append succeeds; on failure the error is
caught (`.catch(err => console.log(...))`) and no state changes, so the
callback never throws. -/
def accCallback (st : AppState) (now : Nat) (x y z : JSNum) (appendOk : Bool) : AppState :=
  let st1 := { st with accData := pushWindow MAX_POINTS st.accData ⟨x, y, z⟩ }
  if st1.isLogging = true ∧ st1.accLogPath ≠ "" then
    if appendOk then
      { st1 with fs := fsAppend st1.fs st1.accLogPath (logLine now x y z) }
    else st1
  else st1

/-- Embedding of the gyroscope subscription callback
(src/unnamed/part_000 lines 78-90), symmetric to `accCallback`. -/
def gyroCallback (st : AppState) (now : Nat) (x y z : JSNum) (appendOk : Bool) : AppState :=
  let st1 := { st with gyroData := pushWindow MAX_POINTS st.gyroData ⟨x, y, z⟩ }
  if st1.isLogging = true ∧ st1.gyroLogPath ≠ "" then
    if appendOk then
      { st1 with fs := fsAppend st1.fs st1.gyroLogPath (logLine now x y z) }
    else st1
  else st1

/-- The stop branch of `handleToggleLogging` (src/unnamed/part_000
lines 172-175): `setIsLogging(false)` and nothing else. -/
def stopLogging (st : AppState) : AppState :=
  { st with isLogging := false }

/-- Embedding of `handleToggleLogging` (src/unnamed/part_000 lines 151-176).
Start branch (`!isLogging`): derive the two paths from the timestamp string
`time`, then `try` to create both files with the CSV header
(`await RNFS.writeFile(...)` twice) and publish both paths; a failure of
either create jumps to `catch`, which only logs the error — the path updates
inside the `try` are skipped.  `setIsLogging(true)` is OUTSIDE the
try/catch, so it runs on failure as well.  Stop branch: `setIsLogging(false)`.
`accCreateOk` / `gyroCreateOk` model success of the two create calls. -/
def handleToggleLogging (st : AppState) (time : String) (accCreateOk gyroCreateOk : Bool) :
    AppState :=
  if st.isLogging = false then
    let pathAcc := documentDirectoryPath ++ "/" ++ time ++ "_acc.log"
    let pathGyro := documentDirectoryPath ++ "/" ++ time ++ "_gyro.log"
    let st1 :=
      if accCreateOk then
        let stA := { st with fs := fsWrite st.fs pathAcc headerLine }
        if gyroCreateOk then
          { stA with
              fs := fsWrite stA.fs pathGyro headerLine,
              accLogPath := pathAcc,
              gyroLogPath := pathGyro }
        else stA
      else st
    { st1 with isLogging := true }
  else
    stopLogging st

/-- The argument object passed to `Share.open` (src/unnamed/part_000
lines 187-194). -/
structure ShareRequest where
  title : String
  message : String
  urls : List String
deriving DecidableEq, Repr

/-- Embedding of `handleShareLogs` (src/unnamed/part_000 lines 183-198):
`if (!accLogPath || !gyroLogPath) return;` (empty strings are falsy), then
`Share.open` with both `file://`-prefixed paths; a rejection is caught and
logged.  The result is the share request issued, or `none` when the function
returns without doing anything. -/
def handleShareLogs (accLogPath gyroLogPath : String) : Option ShareRequest :=
  if accLogPath = "" ∨ gyroLogPath = "" then
    none
  else
    some ⟨"Share logs", "Choose a method to share the sensor logs.",
          ["file://" ++ accLogPath, "file://" ++ gyroLogPath]⟩

/-- The `disabled` prop of the Share Logs button (src/unnamed/part_000
line 210): `disabled={!accLogPath && !gyroLogPath}`. -/
def shareButtonDisabled (accLogPath gyroLogPath : String) : Bool :=
  (accLogPath == "") && (gyroLogPath == "")

/-- State of one stream's log file under the real asynchronous append
semantics: the callback calls `RNFS.appendFile(path, logLine, 'utf8').catch(...)`
and returns WITHOUT awaiting the returned promise (src/unnamed/part_000
lines 74 and 88), so an issued append sits in `pending` until the native
layer completes it; the code imposes no constraint on completion order. -/
structure AsyncAppendState where
  fileContent : String
  pending : List String
deriving DecidableEq, Repr

/-- Issuing an append: the callback fires the native call and returns; the
line joins the pending set in issue order. -/
def issueAppend (st : AsyncAppendState) (line : String) : AsyncAppendState :=
  { st with pending := st.pending ++ [line] }

/-- The native layer completing the `i`-th pending append: its line lands at
the end of the file.  Nothing in the application code forces `i = 0`. -/
def completeAppendAt (st : AsyncAppendState) (i : Nat) : AsyncAppendState :=
  match st.pending.get? i with
  | some line => { fileContent := st.fileContent ++ line, pending := st.pending.eraseIdx i }
  | none => st

/-! ## Helper lemmas -/

theorem safeValue_safeValue (v : JSNum) : safeValue (safeValue v) = safeValue v := by
  cases v <;> rfl

theorem normalizeArray_eq (N : Nat) (arr : List JSNum) :
    normalizeArray N arr =
      List.replicate (N - arr.length) (JSNum.finite 0) ++
        (arr.map safeValue).drop (arr.length - N) := by
  unfold normalizeArray
  simp only [List.length_map]
  split
  · next h =>
    have h0 : N - arr.length = 0 := by omega
    simp [h0]
  · next h =>
    have h0 : arr.length - N = 0 := by omega
    split
    · simp [h0]
    · next h2 =>
      have hN : N - arr.length = 0 := by omega
      simp [h0, hN]

theorem length_normalizeArray (N : Nat) (arr : List JSNum) :
    (normalizeArray N arr).length = N := by
  rw [normalizeArray_eq]
  simp only [List.length_append, List.length_replicate, List.length_drop, List.length_map]
  omega

theorem map_map_safeValue (l : List JSNum) :
    (l.map safeValue).map safeValue = l.map safeValue := by
  rw [List.map_map]
  apply List.map_congr_left
  intro a _
  exact safeValue_safeValue a

theorem map_safeValue_normalizeArray (N : Nat) (arr : List JSNum) :
    (normalizeArray N arr).map safeValue = normalizeArray N arr := by
  rw [normalizeArray_eq, List.map_append, List.map_replicate]
  have h1 : safeValue (JSNum.finite 0) = JSNum.finite 0 := rfl
  rw [h1, List.map_drop, map_map_safeValue]

theorem normalizeArray_of_normalized (N : Nat) (l : List JSNum)
    (hmap : l.map safeValue = l) (hlen : l.length = N) :
    normalizeArray N l = l := by
  simp only [normalizeArray, hmap, hlen]
  rw [if_neg (lt_irrefl N), if_neg (lt_irrefl N)]

theorem pushWindow_eq (N : Nat) (prev : List Sample3) (s : Sample3) :
    pushWindow N prev s = (prev ++ [s]).drop ((prev ++ [s]).length - N) := by
  simp only [pushWindow]
  split
  · rfl
  · next h =>
    have h0 : (prev ++ [s]).length - N = 0 := by
      simp only [List.length_append, List.length_singleton] at h ⊢
      omega
    rw [h0, List.drop_zero]

theorem length_pushWindow (N : Nat) (prev : List Sample3) (s : Sample3) :
    (pushWindow N prev s).length = min (prev.length + 1) N := by
  rw [pushWindow_eq]
  simp only [List.length_drop, List.length_append, List.length_singleton]
  omega

theorem foldl_pushWindow (N : Nat) (samples prev : List Sample3) (h : prev.length ≤ N) :
    samples.foldl (pushWindow N) prev =
      (prev ++ samples).drop ((prev ++ samples).length - N) := by
  induction samples generalizing prev with
  | nil =>
    have h0 : prev.length - N = 0 := by omega
    simp [h0]
  | cons s rest ih =>
    have hlen : (pushWindow N prev s).length ≤ N := by
      rw [length_pushWindow]; omega
    rw [List.foldl_cons, ih (pushWindow N prev s) hlen, pushWindow_eq]
    have hk : (prev ++ [s]).length - N ≤ (prev ++ [s]).length := by omega
    rw [← List.drop_append_of_le_length hk, List.drop_drop]
    rw [List.append_assoc, List.singleton_append]
    congr 1
    simp only [List.length_drop, List.length_append, List.length_cons, List.length_nil,
      List.length_singleton]
    omega

/-! ## Claim theorems -/

/-- Claim C2: for every capacity `N` and every sequence of pushed samples, after
every push (i.e. for every sequence of deliveries, each prefix being such a
sequence) the window holds exactly the last `min(count, N)` pushed samples in
arrival order — equivalently the original sequence with its oldest
`count - N` entries evicted from the front — and in particular its length is
`min(count, N) ≤ N`. -/
theorem window_bounded_fifo (N : Nat) (samples : List Sample3) :
    windowAfter N samples = samples.drop (samples.length - N) ∧
    (windowAfter N samples).length = min samples.length N ∧
    (windowAfter N samples).length ≤ N := by
  have key : windowAfter N samples = samples.drop (samples.length - N) := by
    unfold windowAfter
    have := foldl_pushWindow N samples [] (by simp)
    simpa using this
  refine ⟨key, ?_, ?_⟩
  · rw [key]
    simp only [List.length_drop]
    omega
  · rw [key]
    simp only [List.length_drop]
    omega

/-- Claim C3: `normalizeArrays` maps each array of the batch independently to an
array of exactly `targetLength` elements: the sanitized elements with the
oldest `length - targetLength` dropped from the front when the input is
longer (so the sanitized suffix remains), front-padded with
`targetLength - length` zeros when shorter, and unchanged (post-sanitization)
when equal — one closed form covering all three cases, preserving the order
of the surviving elements. -/
theorem normalizeArrays_shape (arrays : List (List JSNum)) (targetLength : Nat) :
    normalizeArrays arrays targetLength =
      arrays.map (fun arr =>
        List.replicate (targetLength - arr.length) (JSNum.finite 0) ++
          (arr.map safeValue).drop (arr.length - targetLength)) ∧
    (normalizeArrays arrays targetLength).map List.length =
      List.replicate arrays.length targetLength := by
  constructor
  · unfold normalizeArrays
    apply List.map_congr_left
    intro arr _
    exact normalizeArray_eq targetLength arr
  · unfold normalizeArrays
    rw [List.map_map]
    have : (List.length ∘ normalizeArray targetLength) = fun _ => targetLength := by
      funext arr
      exact length_normalizeArray targetLength arr
    rw [this, List.map_const']

/-- Claim C4: `normalizeArrays` is idempotent for a fixed target length, both on
whole batches and on each single array: normalizing an already-normalized
array of the same target length returns it unchanged. -/
theorem normalizeArrays_idempotent (arrays : List (List JSNum)) (targetLength : Nat) :
    normalizeArrays (normalizeArrays arrays targetLength) targetLength =
      normalizeArrays arrays targetLength ∧
    ∀ arr : List JSNum,
      normalizeArray targetLength (normalizeArray targetLength arr) =
        normalizeArray targetLength arr := by
  have single : ∀ arr : List JSNum,
      normalizeArray targetLength (normalizeArray targetLength arr) =
        normalizeArray targetLength arr := fun arr =>
    normalizeArray_of_normalized targetLength (normalizeArray targetLength arr)
      (map_safeValue_normalizeArray targetLength arr)
      (length_normalizeArray targetLength arr)
  constructor
  · unfold normalizeArrays
    rw [List.map_map]
    apply List.map_congr_left
    intro arr _
    exact single arr
  · exact single

/-- Claim C5: the sanitizer is a total function (total by construction in this
embedding, mirroring that `safeValue` can never throw) that returns every
finite value unchanged and returns `0` for each of `NaN`, `+Infinity` and
`-Infinity`. -/
theorem safeValue_spec :
    (∀ q : ℚ, safeValue (JSNum.finite q) = JSNum.finite q) ∧
    safeValue JSNum.nan = JSNum.finite 0 ∧
    safeValue JSNum.posInf = JSNum.finite 0 ∧
    safeValue JSNum.negInf = JSNum.finite 0 :=
  ⟨fun _ => rfl, rfl, rfl, rfl⟩

theorem fsRead_fsAppend (fs : FileSystem) (p line : String) :
    fsRead (fsAppend fs p line) p = (fsRead fs p).map (fun c => c ++ line) := by
  induction fs with
  | nil => rfl
  | cons e rest ih =>
    by_cases h : e.1 = p
    · simp [fsAppend, fsRead, h]
    · simp [fsAppend, fsRead, h, ih]

/-- Claim C1 counterexample: starting from the Idle state, when creation of
the log files fails (`RNFS.writeFile` rejects), the logging flag still
becomes `true`, because `setIsLogging(true)` sits outside the try/catch —
the session state does NOT remain Idle as the claim states. -/
theorem start_failure_counterexample :
    (handleToggleLogging ⟨[], [], "", "", false, []⟩ "2026-01-01T00-00-00-000Z"
        false false).isLogging = true := by
  rfl

/-- Claim C1 (amended): if creating either log file fails during the start
transition, no file paths are published (both published paths are left as
they were) and the error is only logged, with no retry; however the logging
flag is nevertheless set to `true`, so the session state becomes Active
rather than remaining Idle.  When already the first creation fails, the
file system is untouched as well. -/
theorem start_failure_behavior (st : AppState) (time : String)
    (accCreateOk gyroCreateOk : Bool) (hIdle : st.isLogging = false)
    (hFail : accCreateOk = false ∨ gyroCreateOk = false) :
    (handleToggleLogging st time accCreateOk gyroCreateOk).accLogPath = st.accLogPath ∧
    (handleToggleLogging st time accCreateOk gyroCreateOk).gyroLogPath = st.gyroLogPath ∧
    (handleToggleLogging st time accCreateOk gyroCreateOk).isLogging = true ∧
    (accCreateOk = false →
      (handleToggleLogging st time accCreateOk gyroCreateOk).fs = st.fs) := by
  cases accCreateOk <;> cases gyroCreateOk <;>
    simp_all [handleToggleLogging]

/-- Witness for the amended C1 theorem at a concrete Idle state with both
creations failing. -/
theorem start_failure_behavior_witness :
    (((⟨[], [], "", "", false, []⟩ : AppState).isLogging = false) ∧
      ((false : Bool) = false ∨ (false : Bool) = false)) ∧
    ((handleToggleLogging ⟨[], [], "", "", false, []⟩ "T" false false).accLogPath = "" ∧
      (handleToggleLogging ⟨[], [], "", "", false, []⟩ "T" false false).gyroLogPath = "" ∧
      (handleToggleLogging ⟨[], [], "", "", false, []⟩ "T" false false).isLogging = true ∧
      ((false : Bool) = false →
        (handleToggleLogging ⟨[], [], "", "", false, []⟩ "T" false false).fs = [])) :=
  ⟨⟨rfl, Or.inl rfl⟩,
    start_failure_behavior ⟨[], [], "", "", false, []⟩ "T" false false rfl (Or.inl rfl)⟩

/-- Claim C6: each log file starts with the header line `timestamp,x,y,z`;
while Active with a published path, a delivered sample appends exactly one
row `<epoch-millis>,<x>,<y>,<z>` terminated by a newline to that stream's
file; the numeric values are written verbatim — the sample
`{timestamp: 1000, x: 1.5, y: -2.0, z: 0.0}` yields the row `1000,1.5,-2,0`,
and a `NaN` coordinate is logged as `NaN`, not re-sanitized to `0`; a full
start-then-append scenario produces the file
`timestamp,x,y,z\n1000,1.5,-2,0\n`. -/
theorem log_format_spec :
    headerLine = "timestamp,x,y,z\n" ∧
    (∀ (st : AppState) (now : Nat) (x y z : JSNum),
        st.isLogging = true → st.accLogPath ≠ "" →
        fsRead (accCallback st now x y z true).fs st.accLogPath =
          (fsRead st.fs st.accLogPath).map (fun c => c ++ logLine now x y z)) ∧
    logLine 1000 (JSNum.finite (mkRat 3 2)) (JSNum.finite (-2)) (JSNum.finite 0) =
      "1000,1.5,-2,0\n" ∧
    fsRead (accCallback
        (handleToggleLogging ⟨[], [], "", "", false, []⟩ "T" true true)
        1000 (JSNum.finite (mkRat 3 2)) (JSNum.finite (-2)) (JSNum.finite 0) true).fs
      (documentDirectoryPath ++ "/T_acc.log") =
      some "timestamp,x,y,z\n1000,1.5,-2,0\n" ∧
    logLine 5 JSNum.nan (JSNum.finite 0) (JSNum.finite 0) = "5,NaN,0,0\n" := by
  refine ⟨rfl, ?_, by decide, by decide, by decide⟩
  intro st now x y z hLog hPath
  obtain ⟨accD, gyroD, accP, gyroP, isLog, fs⟩ := st
  simp only at hLog hPath
  simp only [accCallback, if_pos (And.intro hLog hPath), if_pos rfl]
  exact fsRead_fsAppend fs accP (logLine now x y z)

/-- Witness for the C6 theorem's conditional append conjunct, at a concrete
Active state whose acc log file holds the header. -/
theorem log_format_spec_witness :
    fsRead (accCallback ⟨[], [], "p", "", true, [("p", headerLine)]⟩ 5
        (JSNum.finite 1) (JSNum.finite 1) (JSNum.finite 1) true).fs "p" =
      (fsRead [("p", headerLine)] "p").map
        (fun c => c ++ logLine 5 (JSNum.finite 1) (JSNum.finite 1) (JSNum.finite 1)) :=
  log_format_spec.2.1 ⟨[], [], "p", "", true, [("p", headerLine)]⟩ 5
    (JSNum.finite 1) (JSNum.finite 1) (JSNum.finite 1) rfl (by decide)

/-- Claim C7: a sample delivered while the session is not Active (logging
flag false), or while no path is published for its stream, performs no file
write and raises no error (the callback is a total function and the
resulting state is exactly the input state with the window updated
normally); contrapositively the file-write path is reachable only while
Active with a published path for that stream. -/
theorem inactive_no_write (st : AppState) (now : Nat) (x y z : JSNum) (appendOk : Bool) :
    (st.isLogging = false ∨ st.accLogPath = "" →
      (accCallback st now x y z appendOk).fs = st.fs ∧
      accCallback st now x y z appendOk =
        { st with accData := pushWindow MAX_POINTS st.accData ⟨x, y, z⟩ }) ∧
    (st.isLogging = false ∨ st.gyroLogPath = "" →
      (gyroCallback st now x y z appendOk).fs = st.fs ∧
      gyroCallback st now x y z appendOk =
        { st with gyroData := pushWindow MAX_POINTS st.gyroData ⟨x, y, z⟩ }) := by
  obtain ⟨accD, gyroD, accP, gyroP, isLog, fs⟩ := st
  constructor
  · intro h
    rcases h with h | h <;> (simp only at h; subst h; simp [accCallback])
  · intro h
    rcases h with h | h <;> (simp only at h; subst h; simp [gyroCallback])

/-- Witness for the C7 theorem: a sample delivered after start-then-stop
(logging flag back to false) writes nothing on either stream. -/
theorem inactive_no_write_witness :
    (accCallback ⟨[], [], "a", "g", false, [("a", headerLine)]⟩ 7
        (JSNum.finite 1) JSNum.nan (JSNum.finite 0) true).fs = [("a", headerLine)] ∧
    (gyroCallback ⟨[], [], "a", "g", false, [("a", headerLine)]⟩ 7
        (JSNum.finite 1) JSNum.nan (JSNum.finite 0) true).fs = [("a", headerLine)] :=
  ⟨((inactive_no_write ⟨[], [], "a", "g", false, [("a", headerLine)]⟩ 7
      (JSNum.finite 1) JSNum.nan (JSNum.finite 0) true).1 (Or.inl rfl)).1,
   ((inactive_no_write ⟨[], [], "a", "g", false, [("a", headerLine)]⟩ 7
      (JSNum.finite 1) JSNum.nan (JSNum.finite 0) true).2 (Or.inl rfl)).1⟩

/-- Claim C8: toggling while Active is exactly the stop transition
`setIsLogging(false)`: the state moves unconditionally to Idle, no file I/O
happens (the file system is untouched), both published paths and both
windows are left unchanged, and the stop transition is idempotent. -/
theorem stop_transition (st : AppState) (time : String)
    (accCreateOk gyroCreateOk : Bool) (hActive : st.isLogging = true) :
    handleToggleLogging st time accCreateOk gyroCreateOk = stopLogging st ∧
    (stopLogging st).isLogging = false ∧
    (stopLogging st).fs = st.fs ∧
    (stopLogging st).accLogPath = st.accLogPath ∧
    (stopLogging st).gyroLogPath = st.gyroLogPath ∧
    (stopLogging st).accData = st.accData ∧
    (stopLogging st).gyroData = st.gyroData ∧
    stopLogging (stopLogging st) = stopLogging st := by
  refine ⟨?_, rfl, rfl, rfl, rfl, rfl, rfl, rfl⟩
  simp [handleToggleLogging, hActive]

/-- Witness for the C8 theorem at a concrete Active state. -/
theorem stop_transition_witness :
    handleToggleLogging ⟨[], [], "a", "g", true, [("a", headerLine)]⟩ "T" true true =
      stopLogging ⟨[], [], "a", "g", true, [("a", headerLine)]⟩ ∧
    (stopLogging (⟨[], [], "a", "g", true, [("a", headerLine)]⟩ : AppState)).isLogging = false ∧
    (stopLogging (⟨[], [], "a", "g", true, [("a", headerLine)]⟩ : AppState)).fs =
      [("a", headerLine)] ∧
    (stopLogging (⟨[], [], "a", "g", true, [("a", headerLine)]⟩ : AppState)).accLogPath = "a" ∧
    (stopLogging (⟨[], [], "a", "g", true, [("a", headerLine)]⟩ : AppState)).gyroLogPath = "g" ∧
    (stopLogging (⟨[], [], "a", "g", true, [("a", headerLine)]⟩ : AppState)).accData = [] ∧
    (stopLogging (⟨[], [], "a", "g", true, [("a", headerLine)]⟩ : AppState)).gyroData = [] ∧
    stopLogging (stopLogging ⟨[], [], "a", "g", true, [("a", headerLine)]⟩) =
      stopLogging ⟨[], [], "a", "g", true, [("a", headerLine)]⟩ :=
  stop_transition ⟨[], [], "a", "g", true, [("a", headerLine)]⟩ "T" true true rfl

/-- Claim C9 (code evaluated at the failing input): the subscription
callback issues its `RNFS.appendFile` calls in arrival order but returns
without awaiting them (fire-and-forget), so for two consecutive samples the
code leaves both appends pending with nothing serializing their completion;
the completion order in which the native layer finishes the second append
first is therefore permitted by the code, and it produces a file whose rows
are out of arrival order — the serialization the claim asserts does not
exist in the code. -/
theorem append_reorder_possible :
    (issueAppend (issueAppend ⟨"", []⟩
        (logLine 1 (JSNum.finite 1) (JSNum.finite 1) (JSNum.finite 1)))
        (logLine 2 (JSNum.finite 2) (JSNum.finite 2) (JSNum.finite 2))).pending =
      [logLine 1 (JSNum.finite 1) (JSNum.finite 1) (JSNum.finite 1),
       logLine 2 (JSNum.finite 2) (JSNum.finite 2) (JSNum.finite 2)] ∧
    (completeAppendAt (completeAppendAt
        (issueAppend (issueAppend ⟨"", []⟩
          (logLine 1 (JSNum.finite 1) (JSNum.finite 1) (JSNum.finite 1)))
          (logLine 2 (JSNum.finite 2) (JSNum.finite 2) (JSNum.finite 2))) 1) 0).fileContent =
      logLine 2 (JSNum.finite 2) (JSNum.finite 2) (JSNum.finite 2) ++
        logLine 1 (JSNum.finite 1) (JSNum.finite 1) (JSNum.finite 1) ∧
    logLine 2 (JSNum.finite 2) (JSNum.finite 2) (JSNum.finite 2) ++
        logLine 1 (JSNum.finite 1) (JSNum.finite 1) (JSNum.finite 1) ≠
      logLine 1 (JSNum.finite 1) (JSNum.finite 1) (JSNum.finite 1) ++
        logLine 2 (JSNum.finite 2) (JSNum.finite 2) (JSNum.finite 2) := by
  refine ⟨by decide, by decide, by decide⟩

/-- Claim C10: `handleShareLogs` issues a share request exactly when both
log paths are non-empty — with both `file://`-prefixed paths — and returns
immediately doing nothing when either path is unset; yet the Share Logs
button is enabled (not disabled) whenever at least one path is set. -/
theorem share_logs_spec (accLogPath gyroLogPath : String) :
    (handleShareLogs accLogPath gyroLogPath = none ↔
      accLogPath = "" ∨ gyroLogPath = "") ∧
    (accLogPath ≠ "" → gyroLogPath ≠ "" →
      handleShareLogs accLogPath gyroLogPath =
        some ⟨"Share logs", "Choose a method to share the sensor logs.",
              ["file://" ++ accLogPath, "file://" ++ gyroLogPath]⟩) ∧
    (shareButtonDisabled accLogPath gyroLogPath = false ↔
      accLogPath ≠ "" ∨ gyroLogPath ≠ "") := by
  refine ⟨?_, ?_, ?_⟩
  · unfold handleShareLogs
    split
    · next h => simp [h]
    · next h => simp [h]
  · intro h1 h2
    unfold handleShareLogs
    rw [if_neg (by tauto)]
  · unfold shareButtonDisabled
    rcases eq_or_ne accLogPath "" with ha | ha <;>
      rcases eq_or_ne gyroLogPath "" with hg | hg <;>
        simp [ha, hg]

/-- Witness for the C10 theorem at concrete non-empty paths. -/
theorem share_logs_spec_witness :
    handleShareLogs "a" "g" =
      some ⟨"Share logs", "Choose a method to share the sensor logs.",
            ["file://" ++ "a", "file://" ++ "g"]⟩ :=
  (share_logs_spec "a" "g").2.1 (by decide) (by decide)
